import Mathlib

/-!
Verification of the batched-write/read retry engine and the multi-item
transaction coordinator of the go-aws-v2 repository.

The Go sources embedded here (shallowly) are:
  * `Retries.ExponentialBackoff` (v2/godynamo, backoff file),
  * `Queries.BatchWriteCreate`, `Queries.BatchWriteDelete`, `Queries.BatchGet`
    and the helpers `batchWriteUtil` / `batchGetUtil` (v2/godynamo/queries.go),
  * `Transactions.TxWrite` and `newTxWriteItem` together with the
    `TransactionItem` constructors (v2/godynamo).

Durations are modelled as mathematical integers (Go int64 without overflow:
all reachable values in the default configuration are far below 2^63, and
`int64(math.Pow(2, a))` equals `2 ^ a` exactly for every attempt value
reachable under a valid int64 cap).  Opaque caller payloads (items, queries,
expressions, attribute maps) are elided: they never influence the control
flow that the claims are about; marshalling of opaque payloads is modelled
as always succeeding.  The remote backend is modelled as a script of
responses, one entry per issued backend call.
-/

namespace GoAws

/-! ## RetryPolicy / RetryState: `Retries` and `ExponentialBackoff`

Go source (v2/godynamo):

    type Retries struct { base, cap, jitter, attempt, elapsed int64 }

    func (r *Retries) ExponentialBackoff() error {
        if r.elapsed >= r.cap { return NewMaxRetriesExceededError() }
        r.attempt += 1.0
        rnd := rand.New(rand.NewSource(time.Now().UnixNano()))
        jitter := rnd.Int63n(r.jitter)
        sleep := r.base * int64(math.Pow(2.0, float64(r.attempt)))
        wait := sleep + jitter
        if r.elapsed+wait > r.cap {
            time.Sleep(time.Duration(wait - (wait + r.elapsed - r.cap)))
            r.elapsed = r.cap
            return nil
        }
        time.Sleep(time.Duration(wait) * time.Millisecond)
        r.elapsed += wait
        return nil
    }

`rand.Int63n(n)` returns a uniform value in `[0, n)` and panics when
`n <= 0`; the random draw is passed in as an explicit parameter, and the
panic is modelled by the `panicInvalidJitter` outcome (it happens after the
`attempt` increment has already been applied to the receiver).  The slept
duration is recorded in nanoseconds: the clamp branch passes a bare
`time.Duration` (nanoseconds), the normal branch multiplies by
`time.Millisecond` (1000000 ns). -/

/-- The `Retries` struct: backoff configuration plus per-operation state.
`attempt` starts at 0 and is only ever incremented, hence a natural. -/
structure Retries where
  base : Int
  cap : Int
  jitter : Int
  attempt : Nat
  elapsed : Int
  deriving DecidableEq, Repr

/-- The two abnormal results of a backoff call: the explicit
`MaxRetriesExceeded` error return, and the runtime panic raised by
`rand.Int63n` when the jitter bound is not positive. -/
inductive BackoffErr where
  | maxRetriesExceeded
  | panicInvalidJitter
  deriving DecidableEq, Repr

/-- Shallow embedding of `Retries.ExponentialBackoff`.  `draw` is the value
returned by `rnd.Int63n(r.jitter)` (uniform in `[0, r.jitter)` whenever
`0 < r.jitter`).  The result is the post-call state of the receiver paired
with either the error outcome or the slept duration in nanoseconds. -/
def exponentialBackoff (r : Retries) (draw : Int) : Retries × Except BackoffErr Int :=
  if r.cap ≤ r.elapsed then
    (r, .error .maxRetriesExceeded)
  else
    let r1 : Retries := { r with attempt := r.attempt + 1 }
    if r.jitter ≤ 0 then
      (r1, .error .panicInvalidJitter)
    else
      let jitter := draw
      let sleep := r.base * (2 : Int) ^ r1.attempt
      let wait := sleep + jitter
      if r.cap < r.elapsed + wait then
        ({ r1 with elapsed := r.cap }, .ok (wait - (wait + r.elapsed - r.cap)))
      else
        ({ r1 with elapsed := r.elapsed + wait }, .ok (wait * 1000000))

/-- `FailConfig.NewRetries`: fresh state with `attempt = 0`, `elapsed = 0`. -/
def newRetries (base cap jitter : Int) : Retries :=
  { base := base, cap := cap, jitter := jitter, attempt := 0, elapsed := 0 }

/-- `DefaultFailConfig = &FailConfig{50, 60000, 250}`. -/
def defaultRetries : Retries := newRetries 50 60000 250

/-- Folding a sequence of backoff calls over one `Retries` state, feeding
each call its random draw. -/
def runBackoffs (r : Retries) (draws : List Int) : Retries :=
  match draws with
  | [] => r
  | d :: ds => runBackoffs (exponentialBackoff r d).1 ds

/-- A backoff call never changes the configuration fields. -/
lemma exponentialBackoff_config (r : Retries) (d : Int) :
    (exponentialBackoff r d).1.base = r.base ∧
    (exponentialBackoff r d).1.cap = r.cap ∧
    (exponentialBackoff r d).1.jitter = r.jitter := by
  unfold exponentialBackoff
  split
  · exact ⟨rfl, rfl, rfl⟩
  · dsimp only
    split
    · exact ⟨rfl, rfl, rfl⟩
    · split
      · exact ⟨rfl, rfl, rfl⟩
      · exact ⟨rfl, rfl, rfl⟩

/-- Single-step invariant: with a non-negative base and a non-negative
random draw, one backoff call never decreases `elapsed` and never pushes it
past `cap`. -/
lemma exponentialBackoff_elapsed_step (r : Retries) (d : Int)
    (hb : 0 ≤ r.base) (hd : 0 ≤ d) (he : r.elapsed ≤ r.cap) :
    r.elapsed ≤ (exponentialBackoff r d).1.elapsed ∧
    (exponentialBackoff r d).1.elapsed ≤ r.cap := by
  unfold exponentialBackoff
  split
  · exact ⟨le_refl _, he⟩
  · rename_i hcap
    dsimp only
    split
    · exact ⟨le_refl _, he⟩
    · rename_i hj
      split
      · rename_i hclamp
        exact ⟨he, le_refl _⟩
      · rename_i hnoclamp
        push_neg at hnoclamp
        constructor
        · have hpow : (0 : Int) ≤ (2 : Int) ^ (r.attempt + 1) := by positivity
          have hsleep : 0 ≤ r.base * (2 : Int) ^ (r.attempt + 1) :=
            mul_nonneg hb hpow
          dsimp only
          omega
        · dsimp only
          omega

/-- C3: the claim predicts that the sleep term is computed from the attempt
value held before the increment; the source increments first. At the default
configuration with a zero draw the claim predicts a new elapsed value of
`0 + (50 * 2 ^ 0 + 0) = 50`, while the code yields 100. -/
theorem c3_backoff_uses_preincrement_attempt_counterexample :
    (exponentialBackoff (newRetries 50 60000 250) 0).1.elapsed ≠
      0 + (50 * 2 ^ (0 : Nat) + 0) := by
  decide

/-- C3 (amended): a backoff call on a state with `elapsed < cap` and a
positive jitter bound, given the random draw `draw ∈ [0, jitterBound)`,
increments `attempt` by exactly 1, computes
`wait = base * 2 ^ (attempt + 1) + draw` (the increment happens before the
sleep term is computed), and then: if `elapsed + wait > cap` it sleeps
`cap - elapsed` (passed as bare nanoseconds) and sets `elapsed = cap`,
otherwise it sleeps `wait` milliseconds (`wait * 1000000` ns) and adds
`wait` to `elapsed`. -/
theorem c3_backoff_step_amended (r : Retries) (draw : Int)
    (hj : 0 < r.jitter) (h0 : 0 ≤ draw) (h1 : draw < r.jitter)
    (he : r.elapsed < r.cap) :
    ∃ slept : Int,
      (exponentialBackoff r draw).1.attempt = r.attempt + 1 ∧
      (exponentialBackoff r draw).2 = .ok slept ∧
      (if r.cap < r.elapsed + (r.base * 2 ^ (r.attempt + 1) + draw) then
        (exponentialBackoff r draw).1.elapsed = r.cap ∧
          slept = r.cap - r.elapsed
      else
        (exponentialBackoff r draw).1.elapsed =
            r.elapsed + (r.base * 2 ^ (r.attempt + 1) + draw) ∧
          slept = (r.base * 2 ^ (r.attempt + 1) + draw) * 1000000) := by
  unfold exponentialBackoff
  rw [if_neg (by omega)]
  dsimp only
  rw [if_neg (by omega)]
  split
  · rename_i hclamp
    exact ⟨r.cap - r.elapsed, rfl, by dsimp only; congr 1; ring, rfl, rfl⟩
  · rename_i hnoclamp
    exact ⟨(r.base * 2 ^ (r.attempt + 1) + draw) * 1000000, rfl, rfl, rfl, rfl⟩

/-- Witness for C3 (amended) at the default configuration, draw 7. -/
theorem c3_backoff_step_amended_witness :
    ∃ slept : Int,
      (exponentialBackoff (newRetries 50 60000 250) 7).1.attempt = 0 + 1 ∧
      (exponentialBackoff (newRetries 50 60000 250) 7).2 = .ok slept ∧
      (if (60000 : Int) < 0 + (50 * 2 ^ (0 + 1) + 7) then
        (exponentialBackoff (newRetries 50 60000 250) 7).1.elapsed = 60000 ∧
          slept = 60000 - 0
      else
        (exponentialBackoff (newRetries 50 60000 250) 7).1.elapsed =
            0 + (50 * 2 ^ (0 + 1) + 7) ∧
          slept = (50 * 2 ^ (0 + 1) + 7) * 1000000) :=
  c3_backoff_step_amended (newRetries 50 60000 250) 7 (by decide) (by decide)
    (by decide) (by decide)

/-- C4: over any sequence of backoff calls on one state, `elapsed` is
monotonically non-decreasing and never exceeds `cap` (given the
configuration invariants: non-negative base, non-negative random draws,
and an initial `elapsed ≤ cap` as established by `NewRetries`); and a call
on a state with `elapsed = cap` returns `MaxRetriesExceeded` with the state
unchanged and no slept duration. -/
theorem c4_elapsed_monotone_capped (r : Retries) (draws : List Int)
    (hb : 0 ≤ r.base) (hd : ∀ d ∈ draws, 0 ≤ d) (he : r.elapsed ≤ r.cap) :
    (r.elapsed ≤ (runBackoffs r draws).elapsed ∧
      (runBackoffs r draws).elapsed ≤ r.cap) ∧
    (∀ d : Int, r.elapsed = r.cap →
      exponentialBackoff r d = (r, .error .maxRetriesExceeded)) := by
  constructor
  · induction draws generalizing r with
    | nil => exact ⟨le_refl _, he⟩
    | cons d ds ih =>
      have hstep := exponentialBackoff_elapsed_step r d hb (hd d (by simp)) he
      have hcfg := exponentialBackoff_config r d
      have hrec := ih (exponentialBackoff r d).1 (hcfg.1 ▸ hb)
        (fun x hx => hd x (by simp [hx])) (hcfg.2.1 ▸ hstep.2)
      rw [runBackoffs]
      exact ⟨le_trans hstep.1 hrec.1, hcfg.2.1 ▸ hrec.2⟩
  · intro d heq
    unfold exponentialBackoff
    rw [if_pos (le_of_eq heq.symm)]

/-- Witness for C4 at the default configuration with two draws. -/
theorem c4_elapsed_monotone_capped_witness :
    (0 : Int) ≤ (runBackoffs (newRetries 50 60000 250) [0, 3]).elapsed ∧
      (runBackoffs (newRetries 50 60000 250) [0, 3]).elapsed ≤ 60000 :=
  (c4_elapsed_monotone_capped (newRetries 50 60000 250) [0, 3] (by decide)
    (by decide) (by decide)).1

/-- C8: a backoff call with jitter bound 0 and `elapsed < cap` does not
proceed with zero jitter; it reaches `rand.Int63n(0)`, which panics
(`rand.Int63n` panics for any bound `n <= 0`), after the attempt counter
has already been incremented.  The claim says the call completes without
crashing the random source; the code crashes. -/
theorem c8_zero_jitter_panics :
    exponentialBackoff (newRetries 50 60000 0) 0 =
      (⟨50, 60000, 0, 1, 0⟩, .error .panicInvalidJitter) := rfl

/-! ## BatchCoordinator: `BatchWriteCreate`, `BatchWriteDelete`, `BatchGet`

Go source (v2/godynamo/queries.go).  All three operations validate first,
build the request from the (opaque) payloads and then run the same retry
loop.  The loop body, with `q.batchWriteUtil` returning `(nil, err)`
whenever the underlying client call fails:

    for {
        result, err = q.batchWriteUtil(ctx, input)
        if err != nil {
            switch {
            case errors.As(err, &throttled):
                input = &dynamodb.BatchWriteItemInput{
                    RequestItems: result.UnprocessedItems,   // result is nil here
                }
                if err := retries.ExponentialBackoff(); err != nil {
                    return fmt.Errorf("retries.ExponentialBackoff: %w", err)
                }
            case errors.As(err, &awsErr):
                if awsErr.Retryable() {
                    ... same nil dereference ...
                } else {
                    return fmt.Errorf("q.batchWriteUtil: %w", err)
                }
            default:
                return goaws.NewInternalError(...)
            }
        }
        if len(result.UnprocessedItems) == 0 { break }
    }
    return nil

On an error outcome, `result` is nil (`batchWriteUtil` returns
`nil, handleErr(err)`), so both retryable branches evaluate
`result.UnprocessedItems` on a nil pointer, which is a runtime panic; the
`panicNilDeref` outcome models it.  On the success path with a non-empty
unprocessed set, the loop re-issues the request with the unchanged `input`
(the reassignment only happens in the dead retryable branches).  Each
backend response is one entry of the `script`; the natural number in an
`ok` entry is the size of the reported unprocessed set.  The second
component of every result below counts the backend calls issued. -/

/-- One backend response, as classified by the loop: a successful call
reporting `unprocessed` leftover items, a `RateLimitExceededError`
(throttling), a retryable `goaws.AwsError`, a non-retryable
`goaws.AwsError`, or any other error (default branch). -/
inductive BatchStepResult where
  | ok (unprocessed : Nat)
  | errThrottled
  | errAwsRetryable
  | errAwsFatal
  | errOther
  deriving DecidableEq, Repr

/-- The distinct error returns of the batch operations. -/
inductive BatchErr where
  | collectionSizeExceeded
  | refObjsCountMismatch
  | tableNotFound
  | wrappedUtilErr
  | internalErr
  deriving DecidableEq, Repr

/-- How one batch invocation ends: a nil return, an explicit error return,
the nil-pointer panic of the retryable branches, or exhaustion of the
response script while the loop is still running (the observation window
ended with the loop still going). -/
inductive BatchOutcome where
  | okReturn
  | errReturn (e : BatchErr)
  | panicNilDeref
  | outOfScript
  deriving DecidableEq, Repr

/-- The shared retry loop of `BatchWriteCreate`, `BatchWriteDelete` and
`BatchGet` (their loop bodies are textually identical up to the
`UnprocessedItems` / `UnprocessedKeys` field name).  Returns the outcome
and the number of backend calls issued. -/
def batchRetryLoop : List BatchStepResult → BatchOutcome × Nat
  | [] => (.outOfScript, 0)
  | step :: rest =>
    match step with
    | .ok u =>
      if u = 0 then (.okReturn, 1)
      else
        let r := batchRetryLoop rest
        (r.1, r.2 + 1)
    | .errThrottled => (.panicNilDeref, 1)
    | .errAwsRetryable => (.panicNilDeref, 1)
    | .errAwsFatal => (.errReturn .wrappedUtilErr, 1)
    | .errOther => (.errReturn .internalErr, 1)

/-- Arguments of one `BatchWriteCreate` / `BatchWriteDelete` invocation that
influence control flow: the length of the item (or query) list, whether the
table name resolves, and the backend response script. -/
structure BatchWriteCall where
  itemsLen : Nat
  tableExists : Bool
  script : List BatchStepResult
  deriving DecidableEq, Repr

/-- `Queries.BatchWriteCreate`: size validation (25), table lookup, then
the retry loop. -/
def BatchWriteCreate (c : BatchWriteCall) : BatchOutcome × Nat :=
  if 25 < c.itemsLen then (.errReturn .collectionSizeExceeded, 0)
  else if c.tableExists = false then (.errReturn .tableNotFound, 0)
  else batchRetryLoop c.script

/-- `Queries.BatchWriteDelete`: identical validation and loop, over the
query list. -/
def BatchWriteDelete (c : BatchWriteCall) : BatchOutcome × Nat :=
  if 25 < c.itemsLen then (.errReturn .collectionSizeExceeded, 0)
  else if c.tableExists = false then (.errReturn .tableNotFound, 0)
  else batchRetryLoop c.script

/-- Arguments of one `Queries.BatchGet` invocation that influence control
flow. -/
structure BatchGetCall where
  queriesLen : Nat
  refObjsLen : Nat
  tableExists : Bool
  script : List BatchStepResult
  deriving DecidableEq, Repr

/-- `Queries.BatchGet`: size validation (100), reference-object count
check, table lookup, then the same retry loop (over `UnprocessedKeys`). -/
def BatchGet (c : BatchGetCall) : BatchOutcome × Nat :=
  if 100 < c.queriesLen then (.errReturn .collectionSizeExceeded, 0)
  else if c.queriesLen ≠ c.refObjsLen then (.errReturn .refObjsCountMismatch, 0)
  else if c.tableExists = false then (.errReturn .tableNotFound, 0)
  else batchRetryLoop c.script

/-- Structural lemma: the retry loop returns nil only after consuming a
response with an empty unprocessed set, every earlier consumed response
having reported a non-empty unprocessed set. -/
lemma batchRetryLoop_okReturn (s : List BatchStepResult)
    (h : (batchRetryLoop s).1 = .okReturn) :
    ∃ n, s.get? n = some (BatchStepResult.ok 0) ∧
      ∀ m, m < n →
        ∃ u, 0 < u ∧ s.get? m = some (BatchStepResult.ok u) := by
  induction s with
  | nil => simp [batchRetryLoop] at h
  | cons a rest ih =>
    cases a with
    | ok u =>
      by_cases hu : u = 0
      · subst hu
        refine ⟨0, by simp, ?_⟩
        intro m hm
        omega
      · rw [batchRetryLoop, if_neg hu] at h
        obtain ⟨n, h1, h2⟩ := ih h
        refine ⟨n + 1, by simpa using h1, ?_⟩
        intro m hm
        cases m with
        | zero => exact ⟨u, Nat.pos_of_ne_zero hu, by simp⟩
        | succ k =>
          obtain ⟨v, hv1, hv2⟩ := h2 k (by omega)
          exact ⟨v, hv1, by simpa using hv2⟩
    | errThrottled => simp [batchRetryLoop] at h
    | errAwsRetryable => simp [batchRetryLoop] at h
    | errAwsFatal => simp [batchRetryLoop] at h
    | errOther => simp [batchRetryLoop] at h

/-- C1: as stated, the claim also asserts that every non-success invocation
returns an explicit error.  On a throttling error the invocation instead
panics (nil dereference of the result while rebuilding the request), which
is neither a nil return nor an error return. -/
theorem c1_success_or_explicit_error_counterexample :
    (BatchWriteCreate ⟨1, true, [.errThrottled]⟩).1 = .panicNilDeref ∧
    BatchOutcome.panicNilDeref ≠ .okReturn ∧
    ∀ e, BatchOutcome.panicNilDeref ≠ .errReturn e := by
  refine ⟨rfl, by decide, ?_⟩
  intro e
  simp

/-- C1 (amended): none of the three batch operations ever returns nil while
the backend-reported unprocessed set is non-empty: a nil return happens only
after an iteration whose response reported an empty unprocessed set (every
earlier iteration having reported a non-empty one); a non-nil normal return
always carries an explicit error, but the throttled/retryable error path
panics instead of returning. -/
theorem c1_no_success_with_unprocessed :
    (∀ c : BatchWriteCall, (BatchWriteCreate c).1 = .okReturn →
      ∃ n, c.script.get? n = some (BatchStepResult.ok 0) ∧
        ∀ m, m < n →
          ∃ u, 0 < u ∧ c.script.get? m = some (BatchStepResult.ok u)) ∧
    (∀ c : BatchWriteCall, (BatchWriteDelete c).1 = .okReturn →
      ∃ n, c.script.get? n = some (BatchStepResult.ok 0) ∧
        ∀ m, m < n →
          ∃ u, 0 < u ∧ c.script.get? m = some (BatchStepResult.ok u)) ∧
    (∀ c : BatchGetCall, (BatchGet c).1 = .okReturn →
      ∃ n, c.script.get? n = some (BatchStepResult.ok 0) ∧
        ∀ m, m < n →
          ∃ u, 0 < u ∧ c.script.get? m = some (BatchStepResult.ok u)) := by
  refine ⟨fun c h => ?_, fun c h => ?_, fun c h => ?_⟩
  · unfold BatchWriteCreate at h
    split at h
    · simp at h
    · split at h
      · simp at h
      · exact batchRetryLoop_okReturn c.script h
  · unfold BatchWriteDelete at h
    split at h
    · simp at h
    · split at h
      · simp at h
      · exact batchRetryLoop_okReturn c.script h
  · unfold BatchGet at h
    split at h
    · simp at h
    · split at h
      · simp at h
      · split at h
        · simp at h
        · exact batchRetryLoop_okReturn c.script h

/-- Witness for C1 (amended): a two-response script whose second response
reports an empty unprocessed set. -/
theorem c1_no_success_with_unprocessed_witness :
    ∃ n, (([.ok 3, .ok 0] : List BatchStepResult)).get? n =
        some (BatchStepResult.ok 0) ∧
      ∀ m, m < n →
        ∃ u, 0 < u ∧ (([.ok 3, .ok 0] : List BatchStepResult)).get? m =
          some (BatchStepResult.ok u) :=
  c1_no_success_with_unprocessed.1 ⟨2, true, [.ok 3, .ok 0]⟩ rfl

/-- C2: on a batch invocation whose backend call fails with a
throttling/rate-limit error, the coordinator does not reach the backoff
loop: `batchWriteUtil` returned `(nil, err)`, and the retryable branch
dereferences the nil result to rebuild the request
(`result.UnprocessedItems`), a runtime panic.  The non-retryable half of
the claim does hold: any non-retryable request-level error terminates the
loop at once and is surfaced wrapped with the operation name
(`fmt.Errorf("q.batchWriteUtil: %w", err)`). -/
theorem c2_throttled_retry_path_panics :
    (BatchWriteCreate ⟨1, true, [.errThrottled]⟩ = (.panicNilDeref, 1)) ∧
    (BatchWriteDelete ⟨1, true, [.errAwsRetryable]⟩ = (.panicNilDeref, 1)) ∧
    (BatchGet ⟨1, 1, true, [.errThrottled]⟩ = (.panicNilDeref, 1)) ∧
    (∀ rest : List BatchStepResult,
      batchRetryLoop (.errAwsFatal :: rest) = (.errReturn .wrappedUtilErr, 1)) := by
  refine ⟨rfl, rfl, rfl, fun rest => rfl⟩

/-- C7: multi-get count-mismatch validation is checked only after the
100-item size validation: a multi-get with 101 queries and 0 reference
objects (mismatched counts) fails with `CollectionSizeExceeded`, not with
`ReferenceObjectsCountMismatch` as the claim requires. -/
theorem c7_mismatch_before_size_counterexample :
    BatchGet ⟨101, 0, true, []⟩ = (.errReturn .collectionSizeExceeded, 0) ∧
    BatchErr.collectionSizeExceeded ≠ .refObjsCountMismatch ∧
    (101 : Nat) ≠ 0 := by
  refine ⟨rfl, by simp, by omega⟩

/-- C7 (amended): write batches of more than 25 items and multi-gets of
more than 100 queries fail immediately with `CollectionSizeExceeded` and
issue zero backend calls; a multi-get of at most 100 queries whose query
count differs from its reference-object count fails immediately with
`ReferenceObjectsCountMismatch` and issues zero backend calls. -/
theorem c7_fail_fast_validation :
    (∀ c : BatchWriteCall, 25 < c.itemsLen →
      BatchWriteCreate c = (.errReturn .collectionSizeExceeded, 0)) ∧
    (∀ c : BatchWriteCall, 25 < c.itemsLen →
      BatchWriteDelete c = (.errReturn .collectionSizeExceeded, 0)) ∧
    (∀ c : BatchGetCall, 100 < c.queriesLen →
      BatchGet c = (.errReturn .collectionSizeExceeded, 0)) ∧
    (∀ c : BatchGetCall, c.queriesLen ≤ 100 → c.queriesLen ≠ c.refObjsLen →
      BatchGet c = (.errReturn .refObjsCountMismatch, 0)) := by
  refine ⟨fun c h => ?_, fun c h => ?_, fun c h => ?_, fun c h1 h2 => ?_⟩
  · unfold BatchWriteCreate
    rw [if_pos h]
  · unfold BatchWriteDelete
    rw [if_pos h]
  · unfold BatchGet
    rw [if_pos h]
  · unfold BatchGet
    rw [if_neg (by omega), if_pos h2]

/-- Witness for C7 (amended): a 26-item write batch, a 26-query delete
batch, a 101-query get, and a 3-versus-2 multi-get. -/
theorem c7_fail_fast_validation_witness :
    BatchWriteCreate ⟨26, true, [.ok 0]⟩ =
        (.errReturn .collectionSizeExceeded, 0) ∧
    BatchWriteDelete ⟨26, true, [.ok 0]⟩ =
        (.errReturn .collectionSizeExceeded, 0) ∧
    BatchGet ⟨101, 101, true, [.ok 0]⟩ =
        (.errReturn .collectionSizeExceeded, 0) ∧
    BatchGet ⟨3, 2, true, [.ok 0]⟩ =
        (.errReturn .refObjsCountMismatch, 0) :=
  ⟨c7_fail_fast_validation.1 ⟨26, true, [.ok 0]⟩ (by decide),
   c7_fail_fast_validation.2.1 ⟨26, true, [.ok 0]⟩ (by decide),
   c7_fail_fast_validation.2.2.1 ⟨101, 101, true, [.ok 0]⟩ (by decide),
   c7_fail_fast_validation.2.2.2 ⟨3, 2, true, [.ok 0]⟩ (by decide) (by decide)⟩

/-- C9: an empty batch is not a zero-call no-op.  The loop body runs at
least once, so the invocation on an empty item list still issues one
backend call (carrying an empty request map) before returning success. -/
theorem c9_empty_batch_calls_backend_counterexample :
    BatchWriteCreate ⟨0, true, [.ok 0]⟩ = (.okReturn, 1) ∧ (1 : Nat) ≠ 0 := by
  exact ⟨rfl, by omega⟩

/-- C9 (amended): invoking a batch operation on an empty item set issues
exactly one backend call (with an empty request body); when that call
reports an empty unprocessed set the invocation returns success. -/
theorem c9_empty_batch_one_call (rest : List BatchStepResult) :
    BatchWriteCreate ⟨0, true, .ok 0 :: rest⟩ = (.okReturn, 1) ∧
    BatchWriteDelete ⟨0, true, .ok 0 :: rest⟩ = (.okReturn, 1) ∧
    BatchGet ⟨0, 0, true, .ok 0 :: rest⟩ = (.okReturn, 1) :=
  ⟨rfl, rfl, rfl⟩

/-! ## TransactionCoordinator: `Transactions.TxWrite` and `newTxWriteItem`

Go source (v2/godynamo).  A `TransactionItem` carries an arbitrary name and
an unexported request kind string set only by the five constructors
(`"C"`, `"U"`, `"R"`, `"D"`, `"CC"`); the payload, table, query and
expression fields are opaque to the control flow and are elided.
`newTxWriteItem` dispatches on the kind string and reports
`InvalidRequestTypeError` on the default arm.  `TxWrite` validates the
25-member limit, builds every member (aborting on the first build error,
wrapped as `fmt.Errorf("newTxWriteItem: %w", err)`), then submits once and
classifies the failure.  The cancellation branch walks the positional
`CancellationReasons` of the response:

    for i, r := range txCanceled.CancellationReasons {
        if *r.Code == "ConditionalCheckFailed" {
            check = true
            failed = append(failed, items[i])
        }
        if *r.Code == "ThrottlingError" {
            throttled = true
            failed = append(failed, items[i])
        }
    }

`items[i]` is indexed by the position of the reason; when the response
carries more reasons than submitted members and a matching code sits at an
out-of-range index, this is a runtime index-out-of-range panic, modelled by
`panicIndexOutOfRange`.  The boolean in each result records whether the
backend was called. -/

/-- `TransactionItem`: member name plus the unexported request kind. -/
structure TransactionItem where
  name : String
  request : String
  deriving DecidableEq, Repr

/-- `NewCreateTxItem`. -/
def NewCreateTxItem (name : String) : TransactionItem := ⟨name, "C"⟩

/-- `NewUpdateTxItem`. -/
def NewUpdateTxItem (name : String) : TransactionItem := ⟨name, "U"⟩

/-- `NewReadTxItem`. -/
def NewReadTxItem (name : String) : TransactionItem := ⟨name, "R"⟩

/-- `NewDeleteTxItem`. -/
def NewDeleteTxItem (name : String) : TransactionItem := ⟨name, "D"⟩

/-- `NewConditionCheckTxItem`. -/
def NewConditionCheckTxItem (name : String) : TransactionItem := ⟨name, "CC"⟩

/-- The four backend transaction entry shapes built by `newTxWriteItem`. -/
inductive TxWriteItemKind where
  | put
  | update
  | delete
  | conditionCheck
  deriving DecidableEq, Repr

/-- The typed errors `TxWrite` can return. -/
inductive TxErr where
  | txItemsExceedsLimit
  | invalidRequestType
  | txConditionCheckFailed
  | txThrottled
  | txConflict
  | txInProgress
  | badTxRequest
  | resourceNotFound
  | internalErr
  deriving DecidableEq, Repr

/-- `newTxWriteItem`: kind-string dispatch; the default arm is
`InvalidRequestTypeError`. -/
def newTxWriteItem (ti : TransactionItem) : Except TxErr TxWriteItemKind :=
  if ti.request = "C" then .ok .put
  else if ti.request = "U" then .ok .update
  else if ti.request = "D" then .ok .delete
  else if ti.request = "CC" then .ok .conditionCheck
  else .error .invalidRequestType

/-- The member-building loop of `TxWrite`: the first failing
`newTxWriteItem` aborts the whole invocation. -/
def buildTxItems : List TransactionItem → Except TxErr (List TxWriteItemKind)
  | [] => .ok []
  | ti :: rest =>
    match newTxWriteItem ti with
    | .error e => .error e
    | .ok k =>
      match buildTxItems rest with
      | .error e => .error e
      | .ok ks => .ok (k :: ks)

/-- One per-member cancellation reason of a canceled transaction (the
`Code` string of the response entry; the AWS response sets it on every
entry, with the value None for members that did not fail). -/
structure CancellationReason where
  code : String
  deriving DecidableEq, Repr

/-- The backend response to `TransactWriteItems`, as classified by the
error dispatch of `TxWrite`. -/
inductive TxBackendResult where
  | ok
  | canceled (reasons : List CancellationReason)
  | conflict
  | inProgress
  | httpErr (status : Nat)
  | otherErr
  deriving DecidableEq, Repr

/-- How a `TxWrite` invocation ends: a normal return (failed-member list
plus optional error), or the index-out-of-range panic of the cancellation
scan. -/
inductive TxResult where
  | ret (failed : List TransactionItem) (err : Option TxErr)
  | panicIndexOutOfRange
  deriving DecidableEq, Repr

/-- The cancellation-reason scan of `TxWrite`, walking the reasons
positionally from index `i`: a matching code appends `items[i]` to the
failed list (a runtime panic when `i` is out of range, modelled as `none`)
and raises the corresponding flag.  Returns the failed list, the
conditional-check flag and the throttled flag. -/
def txCancelScan (items : List TransactionItem) :
    List CancellationReason → Nat →
      Option (List TransactionItem × Bool × Bool)
  | [], _ => some ([], false, false)
  | r :: rs, i =>
    if r.code = "ConditionalCheckFailed" then
      match items.get? i with
      | none => none
      | some it =>
        match txCancelScan items rs (i + 1) with
        | none => none
        | some (f, _, th) => some (it :: f, true, th)
    else if r.code = "ThrottlingError" then
      match items.get? i with
      | none => none
      | some it =>
        match txCancelScan items rs (i + 1) with
        | none => none
        | some (f, ck, _) => some (it :: f, ck, true)
    else
      txCancelScan items rs (i + 1)

/-- `Transactions.TxWrite`: limit validation, member building, one
submission, failure classification.  Returns the result and whether the
backend was called. -/
def TxWrite (items : List TransactionItem) (backend : TxBackendResult) :
    TxResult × Bool :=
  if 25 < items.length then (.ret [] (some .txItemsExceedsLimit), false)
  else
    match buildTxItems items with
    | .error e => (.ret [] (some e), false)
    | .ok _ =>
      match backend with
      | .ok => (.ret [] none, true)
      | .canceled reasons =>
        match txCancelScan items reasons 0 with
        | none => (.panicIndexOutOfRange, true)
        | some (failed, check, throttled) =>
          if check then (.ret failed (some .txConditionCheckFailed), true)
          else if throttled then (.ret failed (some .txThrottled), true)
          else (.ret failed (some .internalErr), true)
      | .conflict => (.ret [] (some .txConflict), true)
      | .inProgress => (.ret [] (some .txInProgress), true)
      | .httpErr status =>
        if status = 400 then (.ret [] (some .badTxRequest), true)
        else if status = 404 then (.ret [] (some .resourceNotFound), true)
        else (.ret [] (some .internalErr), true)
      | .otherErr => (.ret [] (some .internalErr), true)

/-- Spec-side definition (modelled from the specification text, for the
refinement comparison of C5): the members attributed to the failure are
those whose positional cancellation reason carries a matching code; the
code attributes both conditional-check-failed and throttled reasons. -/
def attributedMembers (items : List TransactionItem)
    (reasons : List CancellationReason) : List TransactionItem :=
  reasons.enum.filterMap fun p =>
    if p.2.code = "ConditionalCheckFailed" ∨ p.2.code = "ThrottlingError" then
      items.get? p.1
    else none

/-- Characterization of the cancellation scan when every reason index has a
corresponding member: it completes (no panic), its failed list is exactly
the positional attribution of the matching reasons, and its flags record
whether any conditional-check-failed or throttling reason occurred. -/
lemma txCancelScan_eq (items : List TransactionItem)
    (reasons : List CancellationReason) (i : Nat)
    (h : i + reasons.length ≤ items.length) :
    txCancelScan items reasons i =
      some (((reasons.enumFrom i).filterMap fun p =>
               if p.2.code = "ConditionalCheckFailed" ∨
                   p.2.code = "ThrottlingError" then
                 items.get? p.1
               else none),
            reasons.any (fun r => r.code = "ConditionalCheckFailed"),
            reasons.any (fun r => r.code = "ThrottlingError")) := by
  induction reasons generalizing i with
  | nil => simp [txCancelScan]
  | cons r rs ih =>
    have hi : i < items.length := by
      simp only [List.length_cons] at h
      omega
    obtain ⟨it, hit⟩ : ∃ it, items.get? i = some it := by
      rw [List.get?_eq_get hi]
      exact ⟨_, rfl⟩
    have hit2 : items[i]? = some it := by
      rw [← List.get?_eq_getElem?]
      exact hit
    have hrec := ih (i + 1) (by simp only [List.length_cons] at h ⊢; omega)
    by_cases hc : r.code = "ConditionalCheckFailed"
    · rw [txCancelScan, if_pos hc, hit, hrec]
      simp only [List.enumFrom, List.filterMap_cons, List.any_cons, hc]
      simp [hit2]
    · by_cases ht : r.code = "ThrottlingError"
      · rw [txCancelScan, if_neg hc, if_pos ht, hit, hrec]
        simp only [List.enumFrom, List.filterMap_cons, List.any_cons, ht]
        simp [hit2, hc]
      · rw [txCancelScan, if_neg hc, if_neg ht, hrec]
        simp only [List.enumFrom, List.filterMap_cons, List.any_cons]
        simp [hc, ht]

/-- Members built by the non-read constructors are accepted by the kind
dispatch. -/
lemma newTxWriteItem_ok (ti : TransactionItem)
    (h : ti.request = "C" ∨ ti.request = "U" ∨ ti.request = "D" ∨
      ti.request = "CC") :
    ∃ k, newTxWriteItem ti = .ok k := by
  unfold newTxWriteItem
  rcases h with h1 | h1 | h1 | h1
  · rw [if_pos h1]
    exact ⟨.put, rfl⟩
  · rw [if_neg (by rw [h1]; decide), if_pos h1]
    exact ⟨.update, rfl⟩
  · rw [if_neg (by rw [h1]; decide), if_neg (by rw [h1]; decide), if_pos h1]
    exact ⟨.delete, rfl⟩
  · rw [if_neg (by rw [h1]; decide), if_neg (by rw [h1]; decide),
      if_neg (by rw [h1]; decide), if_pos h1]
    exact ⟨.conditionCheck, rfl⟩

/-- A member list built entirely from the write-kind constructors passes
the building loop. -/
lemma buildTxItems_ok (items : List TransactionItem)
    (h : ∀ ti ∈ items, ti.request = "C" ∨ ti.request = "U" ∨
      ti.request = "D" ∨ ti.request = "CC") :
    ∃ ks, buildTxItems items = .ok ks := by
  induction items with
  | nil => exact ⟨[], rfl⟩
  | cons ti rest ih =>
    obtain ⟨ks, hks⟩ := ih fun x hx => h x (List.mem_cons_of_mem ti hx)
    obtain ⟨k, hk⟩ := newTxWriteItem_ok ti (h ti (List.mem_cons_self ti rest))
    refine ⟨k :: ks, ?_⟩
    rw [buildTxItems, hk, hks]

/-- C5: when the cancellation response mixes a conditional-check-failed
reason with a throttling reason, the returned failed list contains the
throttled member as well, not exactly the conditional-check-failed members
as the claim states. -/
theorem c5_failed_list_not_only_ccf_counterexample :
    (TxWrite [NewCreateTxItem "a", NewCreateTxItem "b"]
        (.canceled [⟨"ConditionalCheckFailed"⟩, ⟨"ThrottlingError"⟩])).1 =
      .ret [NewCreateTxItem "a", NewCreateTxItem "b"]
        (some .txConditionCheckFailed) ∧
    ([NewCreateTxItem "a", NewCreateTxItem "b"] : List TransactionItem) ≠
      [NewCreateTxItem "a"] := by
  exact ⟨rfl, by decide⟩

/-- C5 (amended): on an atomic cancellation whose positional reason list
is no longer than the member list (member i paired with reason i), a
member list within the 25-item limit built from the write-kind
constructors yields: `TxConditionCheckFailed` if any reason is
conditional-check-failed, else `TxThrottled` if any reason is throttled,
else a generic internal error; the failed list positionally collects every
member whose reason is conditional-check-failed or throttled (hence empty
in the generic case). -/
theorem c5_cancellation_classification (items : List TransactionItem)
    (reasons : List CancellationReason)
    (hlen : items.length ≤ 25)
    (hctor : ∀ ti ∈ items, ti.request = "C" ∨ ti.request = "U" ∨
      ti.request = "D" ∨ ti.request = "CC")
    (hr : reasons.length ≤ items.length) :
    TxWrite items (.canceled reasons) =
      (.ret (attributedMembers items reasons)
        (some
          (if reasons.any (fun r => r.code = "ConditionalCheckFailed") then
            .txConditionCheckFailed
          else if reasons.any (fun r => r.code = "ThrottlingError") then
            .txThrottled
          else .internalErr)), true) := by
  obtain ⟨ks, hks⟩ := buildTxItems_ok items hctor
  unfold TxWrite
  rw [if_neg (by omega), hks]
  dsimp only
  rw [txCancelScan_eq items reasons 0 (by omega)]
  dsimp only
  have henum : attributedMembers items reasons =
      (reasons.enumFrom 0).filterMap fun p =>
        if p.2.code = "ConditionalCheckFailed" ∨
            p.2.code = "ThrottlingError" then
          items.get? p.1
        else none := rfl
  rw [← henum]
  by_cases hccf : reasons.any (fun r => r.code = "ConditionalCheckFailed")
  · rw [if_pos hccf]
    simp [hccf]
  · rw [if_neg hccf]
    simp only [Bool.not_eq_true] at hccf
    by_cases hth : reasons.any (fun r => r.code = "ThrottlingError")
    · simp [hccf, hth]
    · simp only [Bool.not_eq_true] at hth
      simp [hccf, hth]

/-- Witness for C5 (amended): the five-member transaction of the spec,
with a conditional-check-failed reason at index 2 and None reasons
elsewhere; the failed list is exactly the member at index 2. -/
theorem c5_cancellation_classification_witness :
    TxWrite
        [NewCreateTxItem "a", NewCreateTxItem "b", NewUpdateTxItem "c",
          NewDeleteTxItem "d", NewConditionCheckTxItem "e"]
        (.canceled [⟨"None"⟩, ⟨"None"⟩, ⟨"ConditionalCheckFailed"⟩,
          ⟨"None"⟩, ⟨"None"⟩]) =
      (.ret
        (attributedMembers
          [NewCreateTxItem "a", NewCreateTxItem "b", NewUpdateTxItem "c",
            NewDeleteTxItem "d", NewConditionCheckTxItem "e"]
          [⟨"None"⟩, ⟨"None"⟩, ⟨"ConditionalCheckFailed"⟩,
            ⟨"None"⟩, ⟨"None"⟩])
        (some
          (if ([(⟨"None"⟩ : CancellationReason), ⟨"None"⟩,
              ⟨"ConditionalCheckFailed"⟩, ⟨"None"⟩, ⟨"None"⟩]).any
              (fun r => r.code = "ConditionalCheckFailed") then
            .txConditionCheckFailed
          else if ([(⟨"None"⟩ : CancellationReason), ⟨"None"⟩,
              ⟨"ConditionalCheckFailed"⟩, ⟨"None"⟩, ⟨"None"⟩]).any
              (fun r => r.code = "ThrottlingError") then
            .txThrottled
          else .internalErr)), true) :=
  c5_cancellation_classification
    [NewCreateTxItem "a", NewCreateTxItem "b", NewUpdateTxItem "c",
      NewDeleteTxItem "d", NewConditionCheckTxItem "e"]
    [⟨"None"⟩, ⟨"None"⟩, ⟨"ConditionalCheckFailed"⟩, ⟨"None"⟩, ⟨"None"⟩]
    (by decide) (by decide) (by decide)

/-- C6: a cancellation response carrying more reasons than submitted
members does not complete without fault: a matching reason at an
out-of-range position makes the scan index past the end of the member list
(`items[i]` with i = 1 on a one-member list), a runtime panic. -/
theorem c6_overlong_reason_list_panics :
    TxWrite [NewCreateTxItem "a"]
        (.canceled [⟨"None"⟩, ⟨"ConditionalCheckFailed"⟩]) =
      (.panicIndexOutOfRange, true) := rfl

/-- A member list containing a read-kind member makes the building loop
fail with `InvalidRequestTypeError` when every member comes from one of
the five public constructors. -/
lemma buildTxItems_read_err (items : List TransactionItem)
    (hctor : ∀ ti ∈ items, ti.request = "C" ∨ ti.request = "U" ∨
      ti.request = "R" ∨ ti.request = "D" ∨ ti.request = "CC")
    (hread : ∃ ti ∈ items, ti.request = "R") :
    buildTxItems items = .error .invalidRequestType := by
  induction items with
  | nil => simp at hread
  | cons ti rest ih =>
    by_cases hr : ti.request = "R"
    · have hbuild : newTxWriteItem ti = .error .invalidRequestType := by
        unfold newTxWriteItem
        rw [if_neg (by rw [hr]; decide), if_neg (by rw [hr]; decide),
          if_neg (by rw [hr]; decide), if_neg (by rw [hr]; decide)]
      rw [buildTxItems, hbuild]
    · have hti := hctor ti (List.mem_cons_self ti rest)
      have hok : ∃ k, newTxWriteItem ti = .ok k := by
        refine newTxWriteItem_ok ti ?_
        rcases hti with h1 | h1 | h1 | h1 | h1
        · exact Or.inl h1
        · exact Or.inr (Or.inl h1)
        · exact absurd h1 hr
        · exact Or.inr (Or.inr (Or.inl h1))
        · exact Or.inr (Or.inr (Or.inr h1))
      obtain ⟨k, hk⟩ := hok
      have hrest : ∃ x ∈ rest, x.request = "R" := by
        obtain ⟨x, hx, hxr⟩ := hread
        rcases List.mem_cons.mp hx with heq | hx2
        · exact absurd (heq ▸ hxr) hr
        · exact ⟨x, hx2, hxr⟩
      rw [buildTxItems, hk,
        ih (fun x hx => hctor x (List.mem_cons_of_mem ti hx)) hrest]

/-- C10: the 25-member limit is validated before the kind dispatch, so an
oversized submission containing read members fails with
`TxItemsExceedsLimit`, not with `InvalidRequestType`. -/
theorem c10_limit_precedes_kind_dispatch_counterexample :
    TxWrite (List.replicate 26 (NewReadTxItem "r")) .ok =
      (.ret [] (some .txItemsExceedsLimit), false) ∧
    TxErr.txItemsExceedsLimit ≠ .invalidRequestType := by
  exact ⟨rfl, by simp⟩

/-- C10 (amended): a submission of at most 25 constructor-built members
containing a read-kind member (`NewReadTxItem`, kind string R) fails with
`InvalidRequestType` before any backend call is made, whatever the backend
would answer: the read kind is constructible through the public API but is
not handled by the write-transaction member dispatch. -/
theorem c10_read_member_rejected_before_backend
    (items : List TransactionItem) (backend : TxBackendResult)
    (hlen : items.length ≤ 25)
    (hctor : ∀ ti ∈ items, ti.request = "C" ∨ ti.request = "U" ∨
      ti.request = "R" ∨ ti.request = "D" ∨ ti.request = "CC")
    (hread : ∃ ti ∈ items, ti.request = "R") :
    TxWrite items backend = (.ret [] (some .invalidRequestType), false) := by
  unfold TxWrite
  rw [if_neg (by omega), buildTxItems_read_err items hctor hread]

/-- Witness for C10 (amended): a create member followed by a read member,
with a backend that would accept the transaction. -/
theorem c10_read_member_rejected_before_backend_witness :
    TxWrite [NewCreateTxItem "a", NewReadTxItem "r"] .ok =
      (.ret [] (some .invalidRequestType), false) :=
  c10_read_member_rejected_before_backend
    [NewCreateTxItem "a", NewReadTxItem "r"] .ok (by decide) (by decide)
    (by decide)

/-- Witness for C9 (amended), at the singleton script. -/
theorem c9_empty_batch_one_call_witness :
    BatchWriteCreate ⟨0, true, [.ok 0]⟩ = (.okReturn, 1) ∧
    BatchWriteDelete ⟨0, true, [.ok 0]⟩ = (.okReturn, 1) ∧
    BatchGet ⟨0, 0, true, [.ok 0]⟩ = (.okReturn, 1) :=
  c9_empty_batch_one_call []
